import Mathlib

/-!
Verification development for the ram-kvm-ai repository.

The Python sources `src/hid.py` and `src/agent.py` are shallowly embedded
below.  Machine integers are modelled as `Int`/`Nat`; the device writes
performed by the `Keyboard` and `Mouse` classes are modelled as report logs
(a keyboard report is the 8-byte list written to `/dev/hidg0`, a mouse
report the clamped 3-byte triple written to `/dev/hidg1`); fallible
collaborators (screen capture, the vision judge, the observer callback)
are modelled with `Except`.  The floating-point expressions of
`Agent.move_cursor_toward` (`(dx**2+dy**2)**0.5` and
`int((dx/distance)*speed)`) are embedded in exact integer arithmetic:
a comparison `sqrt q < c` becomes `q < c^2`, and the truncated quotient
`int(a / sqrt n)` is computed exactly as `Nat.sqrt (a^2 / n)` with the
sign of `a` (a characterisation lemma below justifies the encoding).
-/

namespace RamKvm

/-- Association-list lookup, modelling Python `dict` lookup (`d.get(k)` /
`k in d`) for the constant tables of `src/hid.py`. -/
def lookupAssoc {α β : Type} [DecidableEq α] : List (α × β) → α → Option β
  | [], _ => none
  | (k, v) :: rest, a => if k = a then some v else lookupAssoc rest a

/-! ## src/hid.py: constant tables -/

/-- HID keyboard scan codes, US layout (`KEYMAP` in src/hid.py). -/
def KEYMAP : List (Char × Nat) := [
  ('a', 0x04), ('b', 0x05), ('c', 0x06), ('d', 0x07), ('e', 0x08), ('f', 0x09),
  ('g', 0x0A), ('h', 0x0B), ('i', 0x0C), ('j', 0x0D), ('k', 0x0E), ('l', 0x0F),
  ('m', 0x10), ('n', 0x11), ('o', 0x12), ('p', 0x13), ('q', 0x14), ('r', 0x15),
  ('s', 0x16), ('t', 0x17), ('u', 0x18), ('v', 0x19), ('w', 0x1A), ('x', 0x1B),
  ('y', 0x1C), ('z', 0x1D), ('1', 0x1E), ('2', 0x1F), ('3', 0x20), ('4', 0x21),
  ('5', 0x22), ('6', 0x23), ('7', 0x24), ('8', 0x25), ('9', 0x26), ('0', 0x27),
  (' ', 0x2C), ('-', 0x2D), ('=', 0x2E), ('[', 0x2F), (']', 0x30), ('\\', 0x31),
  (';', 0x33), ('\'', 0x34), ('`', 0x35), (',', 0x36), ('.', 0x37), ('/', 0x38),
  ('\n', 0x28), ('\t', 0x2B), ('\x08', 0x2A)]

/-- Shift-requiring characters mapped to their base character
(`SHIFT_CHARS` in src/hid.py). -/
def SHIFT_CHARS : List (Char × Char) := [
  ('A', 'a'), ('B', 'b'), ('C', 'c'), ('D', 'd'), ('E', 'e'), ('F', 'f'), ('G', 'g'),
  ('H', 'h'), ('I', 'i'), ('J', 'j'), ('K', 'k'), ('L', 'l'), ('M', 'm'), ('N', 'n'),
  ('O', 'o'), ('P', 'p'), ('Q', 'q'), ('R', 'r'), ('S', 's'), ('T', 't'), ('U', 'u'),
  ('V', 'v'), ('W', 'w'), ('X', 'x'), ('Y', 'y'), ('Z', 'z'),
  ('!', '1'), ('@', '2'), ('#', '3'), ('$', '4'), ('%', '5'), ('^', '6'), ('&', '7'),
  ('*', '8'), ('(', '9'), (')', '0'), ('_', '-'), ('+', '='), ('\x7b', '['), ('\x7d', ']'),
  ('|', '\\'), (':', ';'), ('"', '\''), ('~', '`'), ('<', ','), ('>', '.'), ('?', '/')]

/-- Special named keys (`SPECIAL_KEYS` in src/hid.py). -/
def SPECIAL_KEYS : List (String × Nat) := [
  ("enter", 0x28), ("escape", 0x29), ("backspace", 0x2A), ("tab", 0x2B),
  ("space", 0x2C), ("capslock", 0x39), ("f1", 0x3A), ("f2", 0x3B), ("f3", 0x3C),
  ("f4", 0x3D), ("f5", 0x3E), ("f6", 0x3F), ("f7", 0x40), ("f8", 0x41), ("f9", 0x42),
  ("f10", 0x43), ("f11", 0x44), ("f12", 0x45), ("right", 0x4F), ("left", 0x50),
  ("down", 0x51), ("up", 0x52), ("delete", 0x4C), ("home", 0x4A), ("end", 0x4D),
  ("pageup", 0x4B), ("pagedown", 0x4E)]

def MOD_NONE : Nat := 0x00
def MOD_CTRL : Nat := 0x01
def MOD_SHIFT : Nat := 0x02
def MOD_ALT : Nat := 0x04
def MOD_META : Nat := 0x08

/-! ## src/hid.py: Keyboard -/

/-- The 8-byte keyboard report `bytes([modifier, 0, keycode, 0, 0, 0, 0, 0])`
written by `Keyboard._send_report`. -/
def kbReport (modifier keycode : Nat) : List Nat :=
  [modifier, 0, keycode, 0, 0, 0, 0, 0]

/-- Embeds `Keyboard.press_key`: resolve a shift-requiring character to its base
character with the shift bit set, look the base up in `KEYMAP` (`.get(char, 0)`
yields 0, i.e. `none` here, for unmapped characters, which are silently
dropped), and emit a press report followed by the all-zero release report.
The return value is the ordered list of 8-byte reports written. -/
def press_key (char : Char) (modifier : Nat) : List (List Nat) :=
  let p : Nat × Char :=
    match lookupAssoc SHIFT_CHARS char with
    | some base => (modifier ||| MOD_SHIFT, base)
    | none => (modifier, char)
  match lookupAssoc KEYMAP p.2 with
  | none => []
  | some keycode => [kbReport p.1 keycode, kbReport 0 0]

/-- ASCII lowercasing of a key name - the restriction of Python's
`str.lower()` relevant to the ASCII key names of `SPECIAL_KEYS` and its
callers. -/
def asciiLower (s : String) : String :=
  String.mk (s.data.map (fun c =>
    if 'A' ≤ c ∧ c ≤ 'Z' then Char.ofNat (c.toNat + 32) else c))

/-- Embeds `Keyboard.press_special`: look the lowercased name up in `SPECIAL_KEYS`
(unknown names yield keycode 0 and are dropped), then press and release. -/
def press_special (key : String) (modifier : Nat) : List (List Nat) :=
  match lookupAssoc SPECIAL_KEYS (asciiLower key) with
  | none => []
  | some keycode => [kbReport modifier keycode, kbReport 0 0]

/-- Embeds `Keyboard.type_string`: type a string character by character, each via
`press_key` with the default modifier `MOD_NONE`. -/
def type_string (text : List Char) : List (List Nat) :=
  (text.map (fun c => press_key c MOD_NONE)).flatten

/-- A character is mapped exactly when `press_key`'s own resolution finds a
keycode: after the shift-table step, the (base) character is in `KEYMAP` -
the negation of the `keycode == 0 → return` drop condition in src/hid.py. -/
def mappedChar (c : Char) : Bool :=
  match lookupAssoc SHIFT_CHARS c with
  | some base => (lookupAssoc KEYMAP base).isSome
  | none => (lookupAssoc KEYMAP c).isSome

/-- A special-key name is known exactly when `press_special`'s lookup of the
lowercased name in `SPECIAL_KEYS` succeeds. -/
def knownSpecialKey (k : String) : Bool :=
  (lookupAssoc SPECIAL_KEYS (asciiLower k)).isSome

/-! ## src/hid.py: Mouse -/

/-- The clamp `max(-127, min(127, v))` applied by `Mouse._send_report` to
each motion component before packing it as a signed byte. -/
def clamp127 (v : Int) : Int := max (-127) (min 127 v)

/-- The 3-byte mouse report `struct.pack('bbb', buttons, x, y)` written by
`Mouse._send_report`, with both deltas clamped to the signed byte range. -/
def mouse_send_report (buttons x y : Int) : Int × Int × Int :=
  (buttons, clamp127 x, clamp127 y)

theorem clamp127_cases (d : Int) :
    (d < -127 ∧ clamp127 d = -127) ∨ (127 < d ∧ clamp127 d = 127) ∨
      (-127 ≤ d ∧ d ≤ 127 ∧ clamp127 d = d) := by
  unfold clamp127
  rw [max_def, min_def]
  split_ifs <;> omega

theorem clamp127_of_range {d : Int} (h1 : -127 ≤ d) (h2 : d ≤ 127) :
    clamp127 d = d := by
  rcases clamp127_cases d with ⟨h, _⟩ | ⟨h, _⟩ | ⟨_, _, h⟩ <;> omega

theorem clamp127_mem_range (d : Int) :
    -127 ≤ clamp127 d ∧ clamp127 d ≤ 127 := by
  rcases clamp127_cases d with ⟨h, he⟩ | ⟨h, he⟩ | ⟨h1, h2, he⟩ <;> rw [he] <;> omega

theorem moveSteps_decreasing {dx dy : Int} (h : ¬(dx = 0 ∧ dy = 0)) :
    (dx - clamp127 dx).natAbs + (dy - clamp127 dy).natAbs <
      dx.natAbs + dy.natAbs := by
  rcases clamp127_cases dx with ⟨h1, h2⟩ | ⟨h1, h2⟩ | ⟨h1, h1', h2⟩ <;>
    rcases clamp127_cases dy with ⟨g1, g2⟩ | ⟨g1, g2⟩ | ⟨g1, g1', g2⟩ <;>
      rw [h2, g2] <;> omega

/-- The stepping loop of `Mouse.move_to`: while any delta remains, emit one
step with each component clamped to `[-127, 127]` and subtract what was
emitted.  Returns the ordered list of `(step_x, step_y)` motion steps. -/
def moveSteps (dx dy : Int) : List (Int × Int) :=
  if h : dx = 0 ∧ dy = 0 then []
  else (clamp127 dx, clamp127 dy) :: moveSteps (dx - clamp127 dx) (dy - clamp127 dy)
termination_by dx.natAbs + dy.natAbs
decreasing_by exact moveSteps_decreasing h

/-- Embeds `Mouse.move_to`: if the current position is unknown, home to the top-left
corner with 20 maximal negative reports and take the corner as `(0, 0)`;
then decompose the remaining delta into clamped steps, each written as one
mouse report via `Mouse.move`. -/
def move_to (target_x target_y : Int) (current : Option (Int × Int)) :
    List (Int × Int × Int) :=
  match current with
  | none =>
      List.replicate 20 (mouse_send_report 0 (-127) (-127)) ++
        (moveSteps (target_x - 0) (target_y - 0)).map
          (fun d => mouse_send_report 0 d.1 d.2)
  | some (cx, cy) =>
      (moveSteps (target_x - cx) (target_y - cy)).map
        (fun d => mouse_send_report 0 d.1 d.2)

/-- Embeds `Mouse.click`: a button press report followed by an all-zero release
report; unknown button names default to the left button (`.get(button, 1)`). -/
def mouse_click (button : String) : List (Int × Int × Int) :=
  let btn := (lookupAssoc [("left", 1), ("right", 2), ("middle", 4)] button).getD 1
  [mouse_send_report btn 0 0, mouse_send_report 0 0 0]

/-! ## Exact embedding of the float expressions in Agent.move_cursor_toward

`int((a) / distance)` with `distance = sqrt n` is the toward-zero truncation
of `a / sqrt n`.  For `a ≥ 0` that is `⌊ sqrt (a^2 / n) ⌋ = isqrt (a^2 / n)`
(the floor of a real square root equals the integer square root of the
floor), and the negative case mirrors it by sign. -/

/-- Digit-recurrence integer square root with explicit fuel (structural
recursion, so the kernel can evaluate it on literals). -/
def isqrtAux : Nat → Nat → Nat
  | 0, _ => 0
  | fuel + 1, n =>
    if n < 2 then n
    else
      let s := isqrtAux fuel (n / 4)
      if (2 * s + 1) * (2 * s + 1) ≤ n then 2 * s + 1 else 2 * s

/-- The integer square root `⌊ sqrt n ⌋`. -/
def isqrt (n : Nat) : Nat := isqrtAux n n

theorem isqrtAux_spec : ∀ fuel n, n ≤ fuel →
    isqrtAux fuel n * isqrtAux fuel n ≤ n ∧
    n < (isqrtAux fuel n + 1) * (isqrtAux fuel n + 1) := by
  intro fuel
  induction fuel with
  | zero =>
      intro n hn
      have : n = 0 := by omega
      subst this
      simp [isqrtAux]
  | succ fuel ih =>
      intro n hn
      by_cases h2 : n < 2
      · rw [isqrtAux, if_pos h2]
        interval_cases n <;> simp
      · rw [isqrtAux, if_neg h2]
        have hrec : n / 4 ≤ fuel := by omega
        obtain ⟨hs1, hs2⟩ := ih (n / 4) hrec
        set s := isqrtAux fuel (n / 4) with hs
        have h4 : s * s * 4 ≤ n := by
          have := (Nat.le_div_iff_mul_le (by norm_num)).mp hs1
          omega
        have h5 : n < (s + 1) * (s + 1) * 4 := by
          have := (Nat.div_lt_iff_lt_mul (by norm_num)).mp hs2
          omega
        dsimp only
        split_ifs with hl
        · exact ⟨hl, by nlinarith⟩
        · exact ⟨by nlinarith, by omega⟩

theorem isqrt_spec (n : Nat) :
    isqrt n ^ 2 ≤ n ∧ n < (isqrt n + 1) ^ 2 := by
  have h := isqrtAux_spec n n le_rfl
  constructor
  · rw [pow_two]
    exact h.1
  · rw [pow_two]
    exact h.2

/-- Toward-zero truncation of `a / sqrt n` (for `n > 0`), in exact integer
arithmetic. -/
def truncDivSqrt (a : Int) (n : Nat) : Int :=
  let k : Int := isqrt (a.natAbs ^ 2 / n)
  if a < 0 then -k else k

theorem truncDivSqrt_natAbs (a : Int) (n : Nat) :
    (truncDivSqrt a n).natAbs = isqrt (a.natAbs ^ 2 / n) := by
  unfold truncDivSqrt
  split <;> simp

/-- The defining property of the truncated quotient `trunc (a / sqrt n)`:
its absolute value `k` satisfies `k^2 * n ≤ a^2 < (k+1)^2 * n`, and it has
the sign of `a`.  This pins `truncDivSqrt` to the meaning of the source
expression `int((dx / distance) * speed)` without floating point. -/
theorem truncDivSqrt_char (a : Int) (n : Nat) (hn : 0 < n) :
    (truncDivSqrt a n).natAbs ^ 2 * n ≤ a.natAbs ^ 2 ∧
    a.natAbs ^ 2 < ((truncDivSqrt a n).natAbs + 1) ^ 2 * n ∧
    (0 ≤ a → 0 ≤ truncDivSqrt a n) ∧ (a ≤ 0 → truncDivSqrt a n ≤ 0) := by
  rw [truncDivSqrt_natAbs]
  refine ⟨?_, ?_, ?_, ?_⟩
  · rw [pow_two, ← Nat.le_div_iff_mul_le hn, ← pow_two]
    exact (isqrt_spec (a.natAbs ^ 2 / n)).1
  · rw [← Nat.div_lt_iff_lt_mul hn]
    exact (isqrt_spec (a.natAbs ^ 2 / n)).2
  · intro ha
    unfold truncDivSqrt
    rw [if_neg (by omega)]
    exact Int.ofNat_nonneg _
  · intro ha
    unfold truncDivSqrt
    split
    · simp
    · have h0 : a = 0 := by omega
      subst h0
      simp [isqrt, isqrtAux]

/-! ## src/agent.py: data model -/

/-- Integer point in judge coordinate space (`Point` in src/agent.py). -/
structure Point where
  x : Int
  y : Int
deriving DecidableEq, Repr

/-- One vision-service response (`ScreenAnalysis` in src/agent.py).  The
`confidence` and `raw_response` fields are omitted: the control flow never
reads them. -/
structure ScreenAnalysis where
  cursor_position : Option Point
  target_position : Option Point
  target_found : Bool
  target_description : String
  suggested_action : String
  text_to_type : Option String
deriving DecidableEq, Repr

/-- Agent configuration (constructor arguments of `Agent` in src/agent.py).
`capture_delay` is omitted: it only feeds `time.sleep`. -/
structure Config where
  screen_width : Int
  screen_height : Int
  move_speed : Int
  max_iterations : Nat
deriving DecidableEq, Repr

/-- Mutable agent state plus the logs of reports written to the two HID
device channels (the observable effect of `Keyboard._send_report` and
`Mouse._send_report`). -/
structure AgentState where
  estimated_cursor : Option Point
  history : List ScreenAnalysis
  context : String
  kb_reports : List (List Nat)
  mouse_reports : List (Int × Int × Int)
deriving DecidableEq, Repr

/-- The dictionary returned by `Agent.execute_task`. -/
structure RunResult where
  success : Bool
  iterations : Nat
  history : List ScreenAnalysis
  error : Option String
deriving DecidableEq, Repr

/-! ## src/agent.py: Agent methods -/

/-- Python `speed = speed or self.move_speed`: `None` and `0` are falsy and
fall back to the configured base speed. -/
def resolveSpeed (cfg : Config) (speed : Option Int) : Int :=
  match speed with
  | some v => if v = 0 then cfg.move_speed else v
  | none => cfg.move_speed

/-- The proportional speed bands of `Agent.move_cursor_toward`, with the
float comparisons `sqrt distSq < 50` and `sqrt distSq < 150` written
exactly as `distSq < 2500` and `distSq < 22500`.  `Int.fdiv` is Python's
floor division `//`. -/
def bandSpeed (distSq speed : Int) : Int :=
  if distSq < 2500 then max 5 (Int.fdiv speed 4)
  else if distSq < 22500 then max 10 (Int.fdiv speed 2)
  else speed

/-- The normalise-and-scale step of `Agent.move_cursor_toward`:
`int((dx / distance) * speed)` per component when `distance > 0`
(equivalently `dx^2 + dy^2 > 0`), zero otherwise. -/
def scaledStep (dx dy speed : Int) : Int × Int :=
  let distSq := dx ^ 2 + dy ^ 2
  if 0 < distSq then
    (truncDivSqrt (dx * speed) distSq.toNat, truncDivSqrt (dy * speed) distSq.toNat)
  else (0, 0)

/-- Embeds `Agent.move_cursor_toward`: with a known estimate, apply proportional
speed control and step toward the target, write the (clamped) mouse report,
and advance the estimate by the requested (pre-clamp) delta; with no
estimate, step from the screen centre at the unreduced speed and leave the
estimate untouched. -/
def move_cursor_toward (cfg : Config) (s : AgentState) (target : Point)
    (speed? : Option Int) : AgentState :=
  let speed := resolveSpeed cfg speed?
  match s.estimated_cursor with
  | some cur =>
      let dx := target.x - cur.x
      let dy := target.y - cur.y
      let speed := bandSpeed (dx ^ 2 + dy ^ 2) speed
      let m := scaledStep dx dy speed
      { s with
        mouse_reports := s.mouse_reports ++ [mouse_send_report 0 m.1 m.2],
        estimated_cursor := some ⟨cur.x + m.1, cur.y + m.2⟩ }
  | none =>
      let cx := Int.fdiv cfg.screen_width 2
      let cy := Int.fdiv cfg.screen_height 2
      let m := scaledStep (target.x - cx) (target.y - cy) speed
      { s with mouse_reports := s.mouse_reports ++ [mouse_send_report 0 m.1 m.2] }

/-- The direct-observation update in `Agent.execute_task` (line
`self.estimated_cursor = analysis.cursor_position` when present). -/
def observe (s : AgentState) (p : Point) : AgentState :=
  { s with estimated_cursor := some p }

/-- Embeds `Agent.click` via `Mouse.click`. -/
def agentClick (s : AgentState) (button : String) : AgentState :=
  { s with mouse_reports := s.mouse_reports ++ mouse_click button }

/-- Embeds `Agent.type_text` via `Keyboard.type_string`. -/
def agentTypeText (s : AgentState) (text : String) : AgentState :=
  { s with kb_reports := s.kb_reports ++ type_string text.toList }

/-- Scrolling in `Agent.execute_task` via `Keyboard.press_special`. -/
def agentPressSpecial (s : AgentState) (key : String) : AgentState :=
  { s with kb_reports := s.kb_reports ++ press_special key MOD_NONE }

/-! ## src/agent.py: Agent.execute_task

The loop is embedded with explicit state passing.  The two fallible
collaborators are indexed by the 1-based iteration number (the judge also
receives the running context, as in the source); the optional observer
callback threads its own state of type `σ` and may throw.  A Python
exception is `Except.error`. -/

/-- The `if callback: callback(iteration, analysis, action)` call sites of
`Agent.execute_task`.  The callback may throw; its exception is not caught
anywhere in the loop. -/
def invokeCb {σ : Type} (callback : Option (Nat → ScreenAnalysis → String → σ → Except String σ))
    (i : Nat) (a : ScreenAnalysis) (act : String) (ob : σ) : Except String σ :=
  match callback with
  | some f => f i a act ob
  | none => .ok ob

/-- The two statements following a successful judge call: append the
analysis to the history, then overwrite the cursor estimate if the judge
reported a cursor position. -/
def stateAfterObserve (s : AgentState) (a : ScreenAnalysis) : AgentState :=
  let s1 := { s with history := s.history ++ [a] }
  match a.cursor_position with
  | some p => observe s1 p
  | none => s1

/-- The `while self.iteration < self.max_iterations` loop of
`Agent.execute_task`, with `fuel = max_iterations - iteration` and `iter`
the number of completed iterations. -/
def execLoop {σ : Type} (cfg : Config)
    (capture : Nat → Except String String)
    (analyze : Nat → String → String → Except String ScreenAnalysis)
    (callback : Option (Nat → ScreenAnalysis → String → σ → Except String σ)) :
    Nat → Nat → AgentState → σ → Except String (RunResult × AgentState × σ)
  | iter, 0, s, ob =>
      .ok ({ success := false, iterations := iter, history := s.history,
             error := some "Max iterations reached" }, s, ob)
  | iter, fuel + 1, s, ob =>
      let i := iter + 1
      match capture i with
      | .error e =>
          .ok ({ success := false, iterations := i, history := s.history,
                 error := some ("Capture failed: " ++ e) }, s, ob)
      | .ok image =>
        match analyze i image s.context with
        | .error e =>
            .ok ({ success := false, iterations := i, history := s.history,
                   error := some ("Vision failed: " ++ e) }, s, ob)
        | .ok a =>
          let s2 := stateAfterObserve s a
          if a.suggested_action = "done" then
            match invokeCb callback i a "done" ob with
            | .error e => .error e
            | .ok ob' =>
                .ok ({ success := true, iterations := i, history := s2.history,
                       error := none }, s2, ob')
          else if a.suggested_action = "error" then
            let s3 := { s2 with context := s2.context ++ "\nIteration " ++ toString i ++
                          ": Error - " ++ a.target_description }
            match invokeCb callback i a "error" ob with
            | .error e => .error e
            | .ok ob' => execLoop cfg capture analyze callback i fuel s3 ob'
          else if a.suggested_action = "move" then
            let s3 := match a.target_position with
              | some t =>
                  let s' := move_cursor_toward cfg s2 t none
                  { s' with context := s'.context ++ "\nIteration " ++ toString i ++
                      ": Moved toward " ++ a.target_description }
              | none => s2
            match invokeCb callback i a "move" ob with
            | .error e => .error e
            | .ok ob' => execLoop cfg capture analyze callback i fuel s3 ob'
          else if a.suggested_action = "click" then
            let s' := agentClick s2 "left"
            let s3 := { s' with context := s'.context ++ "\nIteration " ++ toString i ++
                          ": Clicked on " ++ a.target_description }
            match invokeCb callback i a "click" ob with
            | .error e => .error e
            | .ok ob' => execLoop cfg capture analyze callback i fuel s3 ob'
          else if a.suggested_action = "type" then
            let s3 := match a.text_to_type with
              | some t =>
                  if t = "" then s2
                  else
                    let s' := agentTypeText s2 t
                    { s' with context := s'.context ++ "\nIteration " ++ toString i ++
                        ": Typed '" ++ t ++ "'" }
              | none => s2
            match invokeCb callback i a "type" ob with
            | .error e => .error e
            | .ok ob' => execLoop cfg capture analyze callback i fuel s3 ob'
          else if a.suggested_action = "scroll_up" then
            let s' := agentPressSpecial s2 "pageup"
            let s3 := { s' with context := s'.context ++ "\nIteration " ++ toString i ++
                          ": Scrolled up" }
            match invokeCb callback i a "scroll_up" ob with
            | .error e => .error e
            | .ok ob' => execLoop cfg capture analyze callback i fuel s3 ob'
          else if a.suggested_action = "scroll_down" then
            let s' := agentPressSpecial s2 "pagedown"
            let s3 := { s' with context := s'.context ++ "\nIteration " ++ toString i ++
                          ": Scrolled down" }
            match invokeCb callback i a "scroll_down" ob with
            | .error e => .error e
            | .ok ob' => execLoop cfg capture analyze callback i fuel s3 ob'
          else
            execLoop cfg capture analyze callback i fuel s2 ob

/-- Embeds `Agent.execute_task`: reset the iteration counter, the history and the
running context (the cursor estimate and the device logs persist), then run
the loop with the full iteration budget. -/
def execute_task {σ : Type} (cfg : Config)
    (capture : Nat → Except String String)
    (analyze : Nat → String → String → Except String ScreenAnalysis)
    (callback : Option (Nat → ScreenAnalysis → String → σ → Except String σ))
    (s0 : AgentState) (ob : σ) : Except String (RunResult × AgentState × σ) :=
  execLoop cfg capture analyze callback 0 cfg.max_iterations
    { s0 with history := [], context := "" } ob

/-! ## Spec-side decoding for the character round-trip (claim C8)

No decoder exists in the source; the following three definitions are
modelled from the spec: re-derive the character of a (keycode, modifier)
pair as the case-insensitive base character found in the keymap, wrapped by
its shift-table pre-image when the shift flag is set. -/

/-- Modelled from the spec: the base character a keycode stands for, i.e.
the (unique) `KEYMAP` entry carrying that keycode. -/
def keymapChar (kc : Nat) : Option Char :=
  (KEYMAP.find? (fun p => p.2 == kc)).map (fun p => p.1)

/-- Modelled from the spec: the shifted variant of a base character, i.e.
the (unique) `SHIFT_CHARS` entry whose base is that character. -/
def shiftedChar (base : Char) : Option Char :=
  (SHIFT_CHARS.find? (fun p => p.2 == base)).map (fun p => p.1)

/-- Modelled from the spec: re-derive a character from a (keycode,
modifier) pair - the case-insensitive base plus the shift flag. -/
def rederiveChar (kc modifier : Nat) : Option Char :=
  (keymapChar kc).bind
    (fun b => if modifier &&& MOD_SHIFT ≠ 0 then shiftedChar b else some b)

/-! ## Claim theorems: HID layer -/

/-- C7: `press_key` on a mapped character writes exactly one press report
immediately followed by one all-zero release report, and so does
`press_special` on a known special key; hence no key or modifier is left
logically held after such a command completes. -/
theorem c7_press_release_pairing :
    (∀ (c : Char) (m : Nat), mappedChar c = true →
      ∃ pm pk, press_key c m = [kbReport pm pk, [0, 0, 0, 0, 0, 0, 0, 0]]) ∧
    (∀ (k : String) (m : Nat), knownSpecialKey k = true →
      ∃ pk, press_special k m = [kbReport m pk, [0, 0, 0, 0, 0, 0, 0, 0]]) := by
  constructor
  · intro c m hm
    unfold mappedChar at hm
    unfold press_key
    rcases hs : lookupAssoc SHIFT_CHARS c with _ | base <;>
      rw [hs] at hm <;> dsimp only at hm ⊢
    · rcases hk : lookupAssoc KEYMAP c with _ | kc
      · rw [hk] at hm
        simp at hm
      · exact ⟨_, _, rfl⟩
    · rcases hk : lookupAssoc KEYMAP base with _ | kc
      · rw [hk] at hm
        simp at hm
      · exact ⟨_, _, rfl⟩
  · intro k m hk
    unfold knownSpecialKey at hk
    unfold press_special
    rcases hs : lookupAssoc SPECIAL_KEYS (asciiLower k) with _ | kc
    · rw [hs] at hk
      simp at hk
    · exact ⟨_, rfl⟩

/-- Witness for C7 at concrete mapped inputs: the plain letter 'a', the
shift-mapped letter 'A' and the special key "enter" each write the
press/release pair, and the pair for 'a' is the concrete reports
[0, 0, 0x04, 0, ...] then all zeros. -/
theorem c7_press_release_pairing_witness :
    (∃ pm pk, press_key 'a' MOD_NONE = [kbReport pm pk, [0, 0, 0, 0, 0, 0, 0, 0]]) ∧
    (∃ pm pk, press_key 'A' MOD_NONE = [kbReport pm pk, [0, 0, 0, 0, 0, 0, 0, 0]]) ∧
    (∃ pk, press_special "enter" MOD_NONE =
      [kbReport MOD_NONE pk, [0, 0, 0, 0, 0, 0, 0, 0]]) ∧
    press_key 'a' MOD_NONE =
      [[0, 0, 0x04, 0, 0, 0, 0, 0], [0, 0, 0, 0, 0, 0, 0, 0]] := by
  exact ⟨c7_press_release_pairing.1 'a' MOD_NONE (by decide),
    c7_press_release_pairing.1 'A' MOD_NONE (by decide),
    c7_press_release_pairing.2 "enter" MOD_NONE (by decide),
    by decide⟩

/-- C8: every shift-table character is resolved by `press_key` to its base
character's keycode with the shift bit set, and re-deriving the character
from that (keycode, modifier) pair reproduces the original character; a
character in neither table produces no report and no error. -/
theorem c8_shift_roundtrip_and_drop :
    (∀ p ∈ SHIFT_CHARS,
      (lookupAssoc KEYMAP p.2).isSome = true ∧
      press_key p.1 MOD_NONE =
        [kbReport MOD_SHIFT ((lookupAssoc KEYMAP p.2).getD 0), kbReport 0 0] ∧
      rederiveChar ((lookupAssoc KEYMAP p.2).getD 0) MOD_SHIFT = some p.1) ∧
    (∀ (c : Char) (m : Nat), lookupAssoc SHIFT_CHARS c = none →
      lookupAssoc KEYMAP c = none → press_key c m = []) := by
  constructor
  · decide
  · intro c m hs hk
    unfold press_key
    rw [hs]
    dsimp only
    rw [hk]

/-- Witness for C8 at concrete inputs: the shifted letter 'A' round-trips
through (keycode 0x04, shift), and the carriage-return character, mapped by
neither table, is dropped without any report. -/
theorem c8_shift_roundtrip_and_drop_witness :
    (('A', 'a') ∈ SHIFT_CHARS ∧
      press_key 'A' MOD_NONE =
        [kbReport MOD_SHIFT ((lookupAssoc KEYMAP 'a').getD 0), kbReport 0 0] ∧
      rederiveChar ((lookupAssoc KEYMAP 'a').getD 0) MOD_SHIFT = some 'A') ∧
    press_key '\x0d' 0 = [] := by
  refine ⟨⟨by decide, ?_, ?_⟩, ?_⟩
  · exact (c8_shift_roundtrip_and_drop.1 ('A', 'a') (by decide)).2.1
  · exact (c8_shift_roundtrip_and_drop.1 ('A', 'a') (by decide)).2.2
  · exact c8_shift_roundtrip_and_drop.2 '\x0d' 0 (by decide) (by decide)

theorem moveSteps_ne_nil {dx dy : Int} (h : ¬(dx = 0 ∧ dy = 0)) :
    moveSteps dx dy ≠ [] := by
  rw [moveSteps, dif_neg h]
  exact List.cons_ne_nil _ _

theorem moveSteps_mem_range (dx dy : Int) :
    ∀ p ∈ moveSteps dx dy, -127 ≤ p.1 ∧ p.1 ≤ 127 ∧ -127 ≤ p.2 ∧ p.2 ≤ 127 := by
  induction dx, dy using moveSteps.induct with
  | case1 dx dy h =>
      rw [moveSteps, dif_pos h]
      intro p hp
      simp at hp
  | case2 dx dy h ih =>
      rw [moveSteps, dif_neg h]
      intro p hp
      rcases List.mem_cons.mp hp with rfl | hp
      · exact ⟨(clamp127_mem_range _).1, (clamp127_mem_range _).2,
          (clamp127_mem_range _).1, (clamp127_mem_range _).2⟩
      · exact ih p hp

theorem moveSteps_sum (dx dy : Int) :
    ((moveSteps dx dy).map Prod.fst).sum = dx ∧
    ((moveSteps dx dy).map Prod.snd).sum = dy := by
  induction dx, dy using moveSteps.induct with
  | case1 dx dy h =>
      rw [moveSteps, dif_pos h]
      simp [h.1, h.2]
  | case2 dx dy h ih =>
      rw [moveSteps, dif_neg h]
      simp only [List.map_cons, List.sum_cons, ih.1, ih.2]
      constructor <;> ring

theorem moveSteps_length_two {dx dy : Int}
    (h : 127 < dx.natAbs ∨ 127 < dy.natAbs) :
    2 ≤ (moveSteps dx dy).length := by
  have h0 : ¬(dx = 0 ∧ dy = 0) := by rcases h with h | h <;> omega
  rw [moveSteps, dif_neg h0]
  have h1 : ¬(dx - clamp127 dx = 0 ∧ dy - clamp127 dy = 0) := by
    rcases clamp127_cases dx with ⟨a1, a2⟩ | ⟨a1, a2⟩ | ⟨a1, a1', a2⟩ <;>
      rcases clamp127_cases dy with ⟨b1, b2⟩ | ⟨b1, b2⟩ | ⟨b1, b1', b2⟩ <;>
        rw [a2, b2] <;> omega
  have := moveSteps_ne_nil h1
  simp only [List.length_cons]
  rcases hl : moveSteps (dx - clamp127 dx) (dy - clamp127 dy) with _ | _
  · exact absurd hl this
  · simp [hl]

/-- C9: `Mouse.move_to` with a known current position decomposes the
requested absolute motion into reports each of whose delta components lies
in [-127, 127], whose deltas sum componentwise to exactly the requested
delta, and which number at least 2 whenever either requested component
exceeds 127 in absolute value. -/
theorem c9_move_to_decomposition (tx ty cx cy : Int) :
    (∀ r ∈ move_to tx ty (some (cx, cy)),
      r.1 = 0 ∧ -127 ≤ r.2.1 ∧ r.2.1 ≤ 127 ∧ -127 ≤ r.2.2 ∧ r.2.2 ≤ 127) ∧
    ((move_to tx ty (some (cx, cy))).map (fun r => r.2.1)).sum = tx - cx ∧
    ((move_to tx ty (some (cx, cy))).map (fun r => r.2.2)).sum = ty - cy ∧
    (127 < (tx - cx).natAbs ∨ 127 < (ty - cy).natAbs →
      2 ≤ (move_to tx ty (some (cx, cy))).length) := by
  have hmap : ∀ d ∈ moveSteps (tx - cx) (ty - cy),
      mouse_send_report 0 d.1 d.2 = (0, d.1, d.2) := by
    intro d hd
    obtain ⟨h1, h2, h3, h4⟩ := moveSteps_mem_range _ _ d hd
    simp [mouse_send_report, clamp127_of_range h1 h2, clamp127_of_range h3 h4]
  refine ⟨?_, ?_, ?_, ?_⟩
  · intro r hr
    simp only [move_to, List.mem_map] at hr
    obtain ⟨d, hd, rfl⟩ := hr
    obtain ⟨h1, h2, h3, h4⟩ := moveSteps_mem_range _ _ d hd
    rw [hmap d hd]
    exact ⟨rfl, h1, h2, h3, h4⟩
  · rw [move_to, List.map_map]
    have he : List.map ((fun r : Int × Int × Int => r.2.1) ∘
          (fun d : Int × Int => mouse_send_report 0 d.1 d.2))
        (moveSteps (tx - cx) (ty - cy)) =
        List.map Prod.fst (moveSteps (tx - cx) (ty - cy)) := by
      apply List.map_congr_left
      intro d hd
      simp [Function.comp, hmap d hd]
    rw [he]
    exact (moveSteps_sum _ _).1
  · rw [move_to, List.map_map]
    have he : List.map ((fun r : Int × Int × Int => r.2.2) ∘
          (fun d : Int × Int => mouse_send_report 0 d.1 d.2))
        (moveSteps (tx - cx) (ty - cy)) =
        List.map Prod.snd (moveSteps (tx - cx) (ty - cy)) := by
      apply List.map_congr_left
      intro d hd
      simp [Function.comp, hmap d hd]
    rw [he]
    exact (moveSteps_sum _ _).2
  · intro h
    simpa [move_to] using moveSteps_length_two h

/-- Witness for C9 at a concrete input: moving by (300, -5) from a known
position produces at least two reports, and the deltas sum back to the
request. -/
theorem c9_move_to_decomposition_witness :
    2 ≤ (move_to 300 (-5) (some (0, 0))).length ∧
    ((move_to 300 (-5) (some (0, 0))).map (fun r => r.2.1)).sum = 300 ∧
    ((move_to 300 (-5) (some (0, 0))).map (fun r => r.2.2)).sum = -5 := by
  refine ⟨(c9_move_to_decomposition 300 (-5) 0 0).2.2.2 (by decide), ?_, ?_⟩
  · simpa using (c9_move_to_decomposition 300 (-5) 0 0).2.1
  · simpa using (c9_move_to_decomposition 300 (-5) 0 0).2.2.1

/-! ## Claim theorems: cursor motion (Agent.move_cursor_toward) -/

/-- Modelled from the claim C3 / spec wording: the motion delta with
proportional speed control applied in BOTH the known-estimate case and the
screen-centre fallback case. -/
def claimedMoveDelta (cfg : Config) (est : Option Point) (target : Point)
    (base : Int) : Int × Int :=
  let cur := est.getD ⟨Int.fdiv cfg.screen_width 2, Int.fdiv cfg.screen_height 2⟩
  let dx := target.x - cur.x
  let dy := target.y - cur.y
  scaledStep dx dy (bandSpeed (dx ^ 2 + dy ^ 2) base)

/-- The delta the code actually emits (the amended claim C3): proportional
speed control only when an estimate exists; the screen-centre fallback uses
the full base speed. -/
def amendedMoveDelta (cfg : Config) (est : Option Point) (target : Point)
    (base : Int) : Int × Int :=
  match est with
  | some cur =>
      let dx := target.x - cur.x
      let dy := target.y - cur.y
      scaledStep dx dy (bandSpeed (dx ^ 2 + dy ^ 2) base)
  | none =>
      scaledStep (target.x - Int.fdiv cfg.screen_width 2)
        (target.y - Int.fdiv cfg.screen_height 2) base

/-- C3 counterexample: with no cursor estimate and target 40 px from the
screen centre, the code emits the full-speed delta (40, 0) while the claim
(proportional banding in both cases) predicts (10, 0). -/
theorem c3_counterexample :
    (move_cursor_toward ⟨1920, 1080, 40, 50⟩ ⟨none, [], "", [], []⟩
        ⟨1000, 540⟩ none).mouse_reports = [(0, 40, 0)] ∧
    claimedMoveDelta ⟨1920, 1080, 40, 50⟩ none ⟨1000, 540⟩ 40 = (10, 0) ∧
    ((0 : Int), (40 : Int), (0 : Int)) ≠ ((0 : Int), (10 : Int), (0 : Int)) := by
  refine ⟨by decide, by decide, by decide⟩

/-- C3 (amended): for every `move` toward a target, the emitted motion
delta is the target-minus-current vector normalised and scaled by the
selected speed, truncated toward zero - where the proportional speed bands
(max(5, base/4) below distance 50, max(10, base/2) in [50, 150)) apply only
when a cursor estimate exists, while the screen-centre fallback uses the
full base speed; a zero-distance target yields a zero delta and still
writes a (zero-motion) report rather than failing.  The final conjunct
pins the `scaledStep` normalisation to the exact truncation of
`delta * speed / distance`. -/
theorem c3_proportional_move_delta (cfg : Config) (s : AgentState)
    (target : Point) (speed? : Option Int) :
    (move_cursor_toward cfg s target speed?).mouse_reports =
      s.mouse_reports ++
        [mouse_send_report 0
          (amendedMoveDelta cfg s.estimated_cursor target (resolveSpeed cfg speed?)).1
          (amendedMoveDelta cfg s.estimated_cursor target (resolveSpeed cfg speed?)).2] ∧
    (move_cursor_toward cfg s target speed?).kb_reports = s.kb_reports ∧
    (∀ cur, s.estimated_cursor = some cur → target = cur →
      amendedMoveDelta cfg s.estimated_cursor target (resolveSpeed cfg speed?) = (0, 0)) ∧
    (∀ dx dy sp : Int, 0 < dx ^ 2 + dy ^ 2 →
      ((scaledStep dx dy sp).1.natAbs ^ 2 * (dx ^ 2 + dy ^ 2).toNat ≤ (dx * sp).natAbs ^ 2 ∧
        (dx * sp).natAbs ^ 2 < ((scaledStep dx dy sp).1.natAbs + 1) ^ 2 * (dx ^ 2 + dy ^ 2).toNat ∧
        (0 ≤ dx * sp → 0 ≤ (scaledStep dx dy sp).1) ∧
        (dx * sp ≤ 0 → (scaledStep dx dy sp).1 ≤ 0)) ∧
      ((scaledStep dx dy sp).2.natAbs ^ 2 * (dx ^ 2 + dy ^ 2).toNat ≤ (dy * sp).natAbs ^ 2 ∧
        (dy * sp).natAbs ^ 2 < ((scaledStep dx dy sp).2.natAbs + 1) ^ 2 * (dx ^ 2 + dy ^ 2).toNat ∧
        (0 ≤ dy * sp → 0 ≤ (scaledStep dx dy sp).2) ∧
        (dy * sp ≤ 0 → (scaledStep dx dy sp).2 ≤ 0))) := by
  refine ⟨?_, ?_, ?_, ?_⟩
  · cases h : s.estimated_cursor <;>
      simp [move_cursor_toward, amendedMoveDelta, h]
  · cases h : s.estimated_cursor <;>
      simp [move_cursor_toward, h]
  · intro cur hc ht
    subst ht
    simp [amendedMoveDelta, hc, scaledStep]
  · intro dx dy sp hpos
    have hn : 0 < (dx ^ 2 + dy ^ 2).toNat := by omega
    have hx := truncDivSqrt_char (dx * sp) (dx ^ 2 + dy ^ 2).toNat hn
    have hy := truncDivSqrt_char (dy * sp) (dx ^ 2 + dy ^ 2).toNat hn
    simp only [scaledStep, if_pos hpos]
    exact ⟨hx, hy⟩

/-- Witness for C3 (amended) at concrete inputs: a move with a known
estimate 30 px left of the target uses the reduced speed max(5, 40/4) = 10,
a zero-distance target yields the zero delta, and the truncation
characterisation holds at dx = 3, dy = 4, speed = 10. -/
theorem c3_proportional_move_delta_witness :
    (move_cursor_toward ⟨1920, 1080, 40, 50⟩ ⟨some ⟨970, 540⟩, [], "", [], []⟩
        ⟨1000, 540⟩ none).mouse_reports =
      [mouse_send_report 0
        (amendedMoveDelta ⟨1920, 1080, 40, 50⟩ (some ⟨970, 540⟩) ⟨1000, 540⟩ 40).1
        (amendedMoveDelta ⟨1920, 1080, 40, 50⟩ (some ⟨970, 540⟩) ⟨1000, 540⟩ 40).2] ∧
    amendedMoveDelta ⟨1920, 1080, 40, 50⟩ (some ⟨970, 540⟩) ⟨1000, 540⟩ 40 = (10, 0) ∧
    amendedMoveDelta ⟨1920, 1080, 40, 50⟩ (some ⟨500, 500⟩) ⟨500, 500⟩ 40 = (0, 0) ∧
    (0 ≤ (scaledStep 3 4 10).1 ∧
      (scaledStep 3 4 10).1.natAbs ^ 2 * ((3 : Int) ^ 2 + 4 ^ 2).toNat ≤ ((3 : Int) * 10).natAbs ^ 2) := by
  refine ⟨?_, by decide, ?_, ?_, ?_⟩
  · exact (c3_proportional_move_delta ⟨1920, 1080, 40, 50⟩
      ⟨some ⟨970, 540⟩, [], "", [], []⟩ ⟨1000, 540⟩ none).1
  · exact (c3_proportional_move_delta ⟨1920, 1080, 40, 50⟩
      ⟨some ⟨500, 500⟩, [], "", [], []⟩ ⟨500, 500⟩ none).2.2.1 ⟨500, 500⟩ rfl rfl
  · exact (((c3_proportional_move_delta ⟨1920, 1080, 40, 50⟩
      ⟨some ⟨500, 500⟩, [], "", [], []⟩ ⟨500, 500⟩ none).2.2.2 3 4 10 (by norm_num)).1).2.2.1
      (by norm_num)
  · exact (((c3_proportional_move_delta ⟨1920, 1080, 40, 50⟩
      ⟨some ⟨500, 500⟩, [], "", [], []⟩ ⟨500, 500⟩ none).2.2.2 3 4 10 (by norm_num)).1).1

/-! ## Claim theorems: pointer-estimate accumulation (C2, C10) -/

/-- A sequence of motion commands: each entry is one `move_cursor_toward`
call (target, optional explicit speed), folded over the agent state. -/
def runMoves (cfg : Config) (s : AgentState) (cmds : List (Point × Option Int)) :
    AgentState :=
  cmds.foldl (fun st c => move_cursor_toward cfg st c.1 c.2) s

theorem move_step_est (cfg : Config) (s : AgentState) (t : Point)
    (sp : Option Int) (cur : Point) (h : s.estimated_cursor = some cur) :
    ∃ d : Int × Int,
      (move_cursor_toward cfg s t sp).mouse_reports =
        s.mouse_reports ++ [((0 : Int), clamp127 d.1, clamp127 d.2)] ∧
      (move_cursor_toward cfg s t sp).estimated_cursor =
        some ⟨cur.x + d.1, cur.y + d.2⟩ := by
  refine ⟨scaledStep (t.x - cur.x) (t.y - cur.y)
    (bandSpeed ((t.x - cur.x) ^ 2 + (t.y - cur.y) ^ 2) (resolveSpeed cfg sp)), ?_, ?_⟩ <;>
    simp [move_cursor_toward, h, mouse_send_report]

theorem runMoves_est (cfg : Config) (cmds : List (Point × Option Int)) :
    ∀ (s : AgentState) (cur : Point), s.estimated_cursor = some cur →
      ∃ ds : List (Int × Int),
        (runMoves cfg s cmds).mouse_reports =
          s.mouse_reports ++ ds.map (fun d => ((0 : Int), clamp127 d.1, clamp127 d.2)) ∧
        (runMoves cfg s cmds).estimated_cursor =
          some ⟨cur.x + (ds.map Prod.fst).sum, cur.y + (ds.map Prod.snd).sum⟩ := by
  induction cmds with
  | nil =>
      intro s cur h
      refine ⟨[], by simp [runMoves], ?_⟩
      simp only [runMoves, List.foldl_nil, List.map_nil, List.sum_nil, add_zero, h]
  | cons c rest ih =>
      intro s cur h
      obtain ⟨d, hrep, hest⟩ := move_step_est cfg s c.1 c.2 cur h
      obtain ⟨ds, hrep2, hest2⟩ := ih (move_cursor_toward cfg s c.1 c.2) _ hest
      refine ⟨d :: ds, ?_, ?_⟩
      · have : runMoves cfg s (c :: rest) =
            runMoves cfg (move_cursor_toward cfg s c.1 c.2) rest := rfl
        rw [this, hrep2, hrep]
        simp
      · have : runMoves cfg s (c :: rest) =
            runMoves cfg (move_cursor_toward cfg s c.1 c.2) rest := rfl
        rw [this, hest2]
        simp only [List.map_cons, List.sum_cons, Option.some.injEq, Point.mk.injEq]
        constructor <;> ring

/-- C2 counterexample: with base speed 200, after observing P0 = (0, 0) one
move toward (1000, 0) requests delta (200, 0); the device receives the
clamped delta (127, 0), yet the estimate advances to (200, 0), not to
P0 + the written delta (127, 0). -/
theorem c2_counterexample :
    (runMoves ⟨1920, 1080, 200, 50⟩
        (observe ⟨none, [], "", [], []⟩ ⟨0, 0⟩) [(⟨1000, 0⟩, none)]).estimated_cursor =
      some ⟨200, 0⟩ ∧
    (runMoves ⟨1920, 1080, 200, 50⟩
        (observe ⟨none, [], "", [], []⟩ ⟨0, 0⟩) [(⟨1000, 0⟩, none)]).mouse_reports =
      [(0, 127, 0)] ∧
    some (⟨0 + 127, 0 + 0⟩ : Point) ≠ some (⟨200, 0⟩ : Point) := by
  refine ⟨by decide, by decide, by decide⟩

/-- C2 (amended): after one direct observation setting the estimate to P0
followed by n motion commands, there is a single list of per-command
requested deltas such that the device received exactly their clamped
versions (one report per command) and the estimate equals P0 plus their
exact integer sum - the estimate tracks the requested (pre-clamp) deltas,
which coincide with the written deltas whenever each component lies in
[-127, 127] (in particular whenever the effective speed is at most 127). -/
theorem c2_estimate_accumulates_requested_deltas (cfg : Config)
    (s : AgentState) (P0 : Point) (cmds : List (Point × Option Int)) :
    ∃ ds : List (Int × Int),
      (runMoves cfg (observe s P0) cmds).mouse_reports =
        s.mouse_reports ++ ds.map (fun d => ((0 : Int), clamp127 d.1, clamp127 d.2)) ∧
      (runMoves cfg (observe s P0) cmds).estimated_cursor =
        some ⟨P0.x + (ds.map Prod.fst).sum, P0.y + (ds.map Prod.snd).sum⟩ := by
  exact runMoves_est cfg cmds (observe s P0) P0 rfl

/-! ## Control-loop lemmas -/

theorem stateAfterObserve_history (s : AgentState) (a : ScreenAnalysis) :
    (stateAfterObserve s a).history = s.history ++ [a] := by
  unfold stateAfterObserve observe
  cases a.cursor_position <;> rfl

theorem stateAfterObserve_est_none (s : AgentState) (a : ScreenAnalysis)
    (h : a.cursor_position = none) :
    (stateAfterObserve s a).estimated_cursor = s.estimated_cursor := by
  unfold stateAfterObserve
  rw [h]

theorem move_cursor_toward_est_none (cfg : Config) (s : AgentState)
    (t : Point) (sp : Option Int) (h : s.estimated_cursor = none) :
    (move_cursor_toward cfg s t sp).estimated_cursor = none := by
  simp [move_cursor_toward, h]

/-- One non-terminating iteration with no callback: a successful capture
and a successful judgment whose action is not `done` continue the loop with
one more completed iteration; when the judgment reports no cursor and the
estimate was unknown, it stays unknown. -/
theorem execLoop_step_continue {σ : Type} (cfg : Config)
    (capture : Nat → Except String String)
    (analyze : Nat → String → String → Except String ScreenAnalysis)
    (iter fuel : Nat) (s : AgentState) (ob : σ) (img : String)
    (a : ScreenAnalysis)
    (hcap : capture (iter + 1) = .ok img)
    (han : analyze (iter + 1) img s.context = .ok a)
    (hne : a.suggested_action ≠ "done") :
    ∃ s', execLoop cfg capture analyze none iter (fuel + 1) s ob =
        execLoop cfg capture analyze none (iter + 1) fuel s' ob ∧
      (a.cursor_position = none → s.estimated_cursor = none →
        s'.estimated_cursor = none) := by
  simp only [execLoop, hcap, han]
  rw [if_neg hne]
  by_cases h1 : a.suggested_action = "error"
  · rw [if_pos h1]
    refine ⟨_, rfl, fun hc hn => ?_⟩
    simpa [stateAfterObserve_est_none s a hc] using hn
  rw [if_neg h1]
  by_cases h2 : a.suggested_action = "move"
  · rw [if_pos h2]
    cases ht : a.target_position with
    | none =>
        refine ⟨_, rfl, fun hc hn => ?_⟩
        simpa [stateAfterObserve_est_none s a hc] using hn
    | some t =>
        refine ⟨_, rfl, fun hc hn => ?_⟩
        apply move_cursor_toward_est_none
        simpa [stateAfterObserve_est_none s a hc] using hn
  rw [if_neg h2]
  by_cases h3 : a.suggested_action = "click"
  · rw [if_pos h3]
    refine ⟨_, rfl, fun hc hn => ?_⟩
    simpa [agentClick, stateAfterObserve_est_none s a hc] using hn
  rw [if_neg h3]
  by_cases h4 : a.suggested_action = "type"
  · rw [if_pos h4]
    cases ht : a.text_to_type with
    | none =>
        refine ⟨_, rfl, fun hc hn => ?_⟩
        simpa [stateAfterObserve_est_none s a hc] using hn
    | some t =>
        by_cases hte : t = ""
        · rw [hte]
          refine ⟨_, rfl, fun hc hn => ?_⟩
          simp only [if_pos rfl]
          simpa [stateAfterObserve_est_none s a hc] using hn
        · refine ⟨_, rfl, fun hc hn => ?_⟩
          simp only [if_neg hte]
          simpa [agentTypeText, stateAfterObserve_est_none s a hc] using hn
  rw [if_neg h4]
  by_cases h5 : a.suggested_action = "scroll_up"
  · rw [if_pos h5]
    refine ⟨_, rfl, fun hc hn => ?_⟩
    simpa [agentPressSpecial, stateAfterObserve_est_none s a hc] using hn
  rw [if_neg h5]
  by_cases h6 : a.suggested_action = "scroll_down"
  · rw [if_pos h6]
    refine ⟨_, rfl, fun hc hn => ?_⟩
    simpa [agentPressSpecial, stateAfterObserve_est_none s a hc] using hn
  rw [if_neg h6]
  refine ⟨_, rfl, fun hc hn => ?_⟩
  simpa [stateAfterObserve_est_none s a hc] using hn

/-- One terminating iteration with no callback: a successful capture and a
judgment whose action is `done` return success at the current iteration. -/
theorem execLoop_step_done {σ : Type} (cfg : Config)
    (capture : Nat → Except String String)
    (analyze : Nat → String → String → Except String ScreenAnalysis)
    (iter fuel : Nat) (s : AgentState) (ob : σ) (img : String)
    (a : ScreenAnalysis)
    (hcap : capture (iter + 1) = .ok img)
    (han : analyze (iter + 1) img s.context = .ok a)
    (hd : a.suggested_action = "done") :
    execLoop cfg capture analyze none iter (fuel + 1) s ob =
      .ok ({ success := true, iterations := iter + 1,
             history := (stateAfterObserve s a).history, error := none },
           stateAfterObserve s a, ob) := by
  simp only [execLoop, hcap, han]
  rw [if_pos hd]
  rfl

/-- With collaborators that never fail and a judge that never answers
`done`, the loop always exhausts its budget and reports it. -/
theorem execLoop_never_done {σ : Type} (cfg : Config)
    (capture : Nat → Except String String)
    (analyze : Nat → String → String → Except String ScreenAnalysis)
    (hcap : ∀ i, ∃ img, capture i = .ok img)
    (han : ∀ i img ctx, ∃ a, analyze i img ctx = .ok a ∧ a.suggested_action ≠ "done") :
    ∀ (fuel iter : Nat) (s : AgentState) (ob : σ),
      ∃ s' : AgentState,
        execLoop cfg capture analyze none iter fuel s ob =
          .ok ({ success := false, iterations := iter + fuel,
                 history := s'.history, error := some "Max iterations reached" },
               s', ob) := by
  intro fuel
  induction fuel with
  | zero =>
      intro iter s ob
      exact ⟨s, rfl⟩
  | succ fuel ih =>
      intro iter s ob
      obtain ⟨img, himg⟩ := hcap (iter + 1)
      obtain ⟨a, ha, hne⟩ := han (iter + 1) img s.context
      obtain ⟨s', heq, _⟩ :=
        execLoop_step_continue cfg capture analyze iter fuel s ob img a himg ha hne
      obtain ⟨s'', h2⟩ := ih (iter + 1) s' ob
      have harith : iter + 1 + fuel = iter + (fuel + 1) := by omega
      rw [harith] at h2
      exact ⟨s'', by rw [heq, h2]⟩

/-- With collaborators that never fail up to iteration k and a judge that
answers `done` exactly at iteration k, the loop succeeds at iteration k. -/
theorem execLoop_done_at_k {σ : Type} (cfg : Config)
    (capture : Nat → Except String String)
    (analyze : Nat → String → String → Except String ScreenAnalysis)
    (k : Nat)
    (hcap : ∀ i, ∃ img, capture i = .ok img)
    (hbefore : ∀ i img ctx, i < k →
      ∃ a, analyze i img ctx = .ok a ∧ a.suggested_action ≠ "done")
    (hat : ∀ img ctx, ∃ a, analyze k img ctx = .ok a ∧ a.suggested_action = "done") :
    ∀ (fuel iter : Nat) (s : AgentState) (ob : σ), iter < k → k ≤ iter + fuel →
      ∃ out : RunResult × AgentState × σ,
        execLoop cfg capture analyze none iter fuel s ob = .ok out ∧
        out.1.success = true ∧ out.1.iterations = k ∧ out.1.error = none := by
  intro fuel
  induction fuel with
  | zero =>
      intro iter s ob h1 h2
      omega
  | succ fuel ih =>
      intro iter s ob h1 h2
      obtain ⟨img, himg⟩ := hcap (iter + 1)
      by_cases hk : iter + 1 = k
      · obtain ⟨a, ha, hd⟩ := hat img s.context
        rw [← hk] at ha
        rw [execLoop_step_done cfg capture analyze iter fuel s ob img a himg ha hd]
        exact ⟨_, rfl, rfl, hk, rfl⟩
      · have hlt : iter + 1 < k := by omega
        obtain ⟨a, ha, hne⟩ := hbefore (iter + 1) img s.context hlt
        obtain ⟨s', heq, _⟩ :=
          execLoop_step_continue cfg capture analyze iter fuel s ob img a himg ha hne
        rw [heq]
        exact ih (iter + 1) s' ob hlt (by omega)

/-! ## Claim theorems: control loop -/

/-- C10: a `move_cursor_toward` call made while the estimate is unknown
still writes exactly one motion report (computed from the screen-centre
fallback) but never creates the estimate; and through a whole loop run in
which no judgment ever reports a cursor position, an initially unknown
estimate stays unknown - only a direct cursor observation can create it. -/
theorem c10_fallback_preserves_unknown_estimate {σ : Type} :
    (∀ (cfg : Config) (s : AgentState) (t : Point) (sp : Option Int),
      s.estimated_cursor = none →
      (move_cursor_toward cfg s t sp).estimated_cursor = none ∧
      ∃ r, (move_cursor_toward cfg s t sp).mouse_reports = s.mouse_reports ++ [r]) ∧
    (∀ (cfg : Config) (capture : Nat → Except String String)
        (analyze : Nat → String → String → Except String ScreenAnalysis)
        (fuel iter : Nat) (s : AgentState) (ob : σ)
        (out : RunResult × AgentState × σ),
      s.estimated_cursor = none →
      (∀ i img ctx a, analyze i img ctx = Except.ok a → a.cursor_position = none) →
      execLoop cfg capture analyze none iter fuel s ob = .ok out →
      out.2.1.estimated_cursor = none) := by
  constructor
  · intro cfg s t sp h
    exact ⟨move_cursor_toward_est_none cfg s t sp h,
      mouse_send_report 0
        (scaledStep (t.x - Int.fdiv cfg.screen_width 2)
          (t.y - Int.fdiv cfg.screen_height 2) (resolveSpeed cfg sp)).1
        (scaledStep (t.x - Int.fdiv cfg.screen_width 2)
          (t.y - Int.fdiv cfg.screen_height 2) (resolveSpeed cfg sp)).2,
      by simp [move_cursor_toward, h]⟩
  · intro cfg capture analyze fuel
    induction fuel with
    | zero =>
        intro iter s ob out hs hcur hrun
        simp only [execLoop] at hrun
        cases hrun
        exact hs
    | succ fuel ih =>
        intro iter s ob out hs hcur hrun
        cases hc : capture (iter + 1) with
        | error e =>
            simp only [execLoop, hc] at hrun
            cases hrun
            exact hs
        | ok img =>
            cases ha : analyze (iter + 1) img s.context with
            | error e =>
                simp only [execLoop, hc, ha] at hrun
                cases hrun
                exact hs
            | ok a =>
                have hcp := hcur _ _ _ _ ha
                by_cases hd : a.suggested_action = "done"
                · rw [execLoop_step_done cfg capture analyze iter fuel s ob img a hc ha hd]
                    at hrun
                  cases hrun
                  dsimp only
                  rw [stateAfterObserve_est_none s a hcp]
                  exact hs
                · obtain ⟨s', heq, hest⟩ :=
                    execLoop_step_continue cfg capture analyze iter fuel s ob img a hc ha hd
                  rw [heq] at hrun
                  exact ih (iter + 1) s' ob out (hest hcp hs) hcur hrun

/-- Witness for C10 at concrete inputs: one fallback move toward (10, 10)
from the 1920x1080 centre writes the report (0, -34, -19) yet leaves the
estimate unknown, both for a bare `move_cursor_toward` call and through a
one-iteration loop run. -/
theorem c10_fallback_preserves_unknown_estimate_witness :
    (move_cursor_toward ⟨1920, 1080, 40, 1⟩ ⟨none, [], "", [], []⟩ ⟨10, 10⟩
        none).estimated_cursor = none ∧
    ((⟨false, 1, [⟨none, some ⟨10, 10⟩, false, "t", "move", none⟩],
        some "Max iterations reached"⟩,
      ⟨none, [⟨none, some ⟨10, 10⟩, false, "t", "move", none⟩],
        "\nIteration 1: Moved toward t", [], [(0, -34, -19)]⟩, ()) :
        RunResult × AgentState × Unit).2.1.estimated_cursor = none := by
  constructor
  · exact (c10_fallback_preserves_unknown_estimate (σ := Unit)).1
      ⟨1920, 1080, 40, 1⟩ ⟨none, [], "", [], []⟩ ⟨10, 10⟩ none rfl |>.1
  · exact (c10_fallback_preserves_unknown_estimate (σ := Unit)).2
      ⟨1920, 1080, 40, 1⟩ (fun _ => .ok "")
      (fun _ _ _ => .ok ⟨none, some ⟨10, 10⟩, false, "t", "move", none⟩)
      1 0 ⟨none, [], "", [], []⟩ () _
      rfl (fun i img ctx a h => by cases h; rfl) rfl

/-- C6: a capture failure on the first iteration is fatal and immediate:
no retry and no judge call, and the task returns success = false,
iterations = 1, and the error string "Capture failed: " followed by the
capture error; the agent state (with history and context reset on entry)
and the observer state are returned untouched. -/
theorem c6_capture_failure_fatal {σ : Type} (cfg : Config)
    (capture : Nat → Except String String)
    (analyze : Nat → String → String → Except String ScreenAnalysis)
    (callback : Option (Nat → ScreenAnalysis → String → σ → Except String σ))
    (s0 : AgentState) (ob : σ) (e : String)
    (hmax : 1 ≤ cfg.max_iterations)
    (hcap : capture 1 = .error e) :
    execute_task cfg capture analyze callback s0 ob =
      .ok ({ success := false, iterations := 1, history := [],
             error := some ("Capture failed: " ++ e) },
           { s0 with history := [], context := "" }, ob) := by
  obtain ⟨fuel, hfuel⟩ : ∃ fuel, cfg.max_iterations = fuel + 1 :=
    ⟨cfg.max_iterations - 1, by omega⟩
  unfold execute_task
  rw [hfuel]
  simp only [execLoop, Nat.zero_add, hcap]

/-- Witness for C6 at concrete inputs: a capture that throws "device gone"
on iteration 1 aborts a 5-iteration task at iteration 1 with the wrapped
error message. -/
theorem c6_capture_failure_fatal_witness :
    execute_task (σ := Unit) ⟨1920, 1080, 40, 5⟩ (fun _ => .error "device gone")
        (fun _ _ _ => .ok ⟨none, none, false, "", "done", none⟩) none
        ⟨some ⟨3, 4⟩, [], "old", [], []⟩ () =
      .ok ({ success := false, iterations := 1, history := [],
             error := some ("Capture failed: " ++ "device gone") },
           { estimated_cursor := some ⟨3, 4⟩, history := [], context := "",
             kb_reports := [], mouse_reports := [] }, ()) := by
  exact c6_capture_failure_fatal ⟨1920, 1080, 40, 5⟩ (fun _ => .error "device gone")
    (fun _ _ _ => .ok ⟨none, none, false, "", "done", none⟩) none
    ⟨some ⟨3, 4⟩, [], "old", [], []⟩ () "device gone" (by norm_num) rfl

/-- C1 counterexample: with a judge that never answers `done` and a cap of
2, the run fails after 2 iterations but the error string is
"Max iterations reached" (capital M), not "max iterations reached" as the
claim states. -/
theorem c1_counterexample :
    execute_task (σ := Unit) ⟨1920, 1080, 40, 2⟩ (fun _ => .ok "")
        (fun _ _ _ => .ok ⟨none, none, false, "", "error", none⟩) none
        ⟨none, [], "", [], []⟩ () =
      .ok ({ success := false, iterations := 2,
             history := [⟨none, none, false, "", "error", none⟩,
                         ⟨none, none, false, "", "error", none⟩],
             error := some "Max iterations reached" },
           { estimated_cursor := none,
             history := [⟨none, none, false, "", "error", none⟩,
                         ⟨none, none, false, "", "error", none⟩],
             context := "\nIteration 1: Error - \nIteration 2: Error - ",
             kb_reports := [], mouse_reports := [] }, ()) ∧
    some "Max iterations reached" ≠ some "max iterations reached" := by
  exact ⟨rfl, by decide⟩

/-- C1 (amended): with an iteration cap of at least 1, a capture that never
throws and a judge that never throws, (i) if the judge answers `done` first
at iteration k ≤ cap then `execute_task` returns success = true with
iterations = k and error = none, and (ii) if the judge never answers `done`
then `execute_task` returns success = false with iterations = cap and
error = "Max iterations reached" (capital M, as written by the source). -/
theorem c1_loop_termination {σ : Type} (cfg : Config)
    (capture : Nat → Except String String)
    (analyze1 analyze2 : Nat → String → String → Except String ScreenAnalysis)
    (s0 : AgentState) (ob : σ) (k : Nat) :
    (1 ≤ k → k ≤ cfg.max_iterations →
      (∀ i, ∃ img, capture i = .ok img) →
      (∀ i img ctx, i < k →
        ∃ a, analyze1 i img ctx = .ok a ∧ a.suggested_action ≠ "done") →
      (∀ img ctx, ∃ a, analyze1 k img ctx = .ok a ∧ a.suggested_action = "done") →
      ∃ out : RunResult × AgentState × σ,
        execute_task cfg capture analyze1 none s0 ob = .ok out ∧
        out.1.success = true ∧ out.1.iterations = k ∧ out.1.error = none) ∧
    ((∀ i, ∃ img, capture i = .ok img) →
      (∀ i img ctx, ∃ a, analyze2 i img ctx = .ok a ∧ a.suggested_action ≠ "done") →
      ∃ out : RunResult × AgentState × σ,
        execute_task cfg capture analyze2 none s0 ob = .ok out ∧
        out.1.success = false ∧ out.1.iterations = cfg.max_iterations ∧
        out.1.error = some "Max iterations reached") := by
  constructor
  · intro hk1 hk2 hcap hbefore hat
    exact execLoop_done_at_k cfg capture analyze1 k hcap hbefore hat
      cfg.max_iterations 0 { s0 with history := [], context := "" } ob
      (by omega) (by omega)
  · intro hcap hnever
    obtain ⟨s', h⟩ := execLoop_never_done cfg capture analyze2 hcap hnever
      cfg.max_iterations 0 { s0 with history := [], context := "" } ob
    refine ⟨_, h, rfl, ?_, rfl⟩
    simp

/-- Witness for C1 (amended) at concrete inputs: a scripted judge that
answers `done` at iteration 2 under cap 3 succeeds with iterations = 2, and
a judge that always answers `error` under cap 3 fails with iterations = 3
and the capital-M error string. -/
theorem c1_loop_termination_witness :
    (∃ out : RunResult × AgentState × Unit,
      execute_task ⟨1920, 1080, 40, 3⟩ (fun _ => .ok "")
          (fun i _ _ => .ok ⟨none, none, false, "",
            if i = 2 then "done" else "error", none⟩) none
          ⟨none, [], "", [], []⟩ () = .ok out ∧
      out.1.success = true ∧ out.1.iterations = 2 ∧ out.1.error = none) ∧
    (∃ out : RunResult × AgentState × Unit,
      execute_task ⟨1920, 1080, 40, 3⟩ (fun _ => .ok "")
          (fun _ _ _ => .ok ⟨none, none, false, "", "error", none⟩) none
          ⟨none, [], "", [], []⟩ () = .ok out ∧
      out.1.success = false ∧ out.1.iterations = 3 ∧
      out.1.error = some "Max iterations reached") := by
  constructor
  · exact (c1_loop_termination ⟨1920, 1080, 40, 3⟩ (fun _ => .ok "")
      (fun i _ _ => .ok ⟨none, none, false, "",
        if i = 2 then "done" else "error", none⟩)
      (fun _ _ _ => .ok ⟨none, none, false, "", "error", none⟩)
      ⟨none, [], "", [], []⟩ () 2).1 (by norm_num) (by norm_num)
      (fun i => ⟨"", rfl⟩)
      (fun i img ctx hi => ⟨_, rfl, by
        have : i ≠ 2 := by omega
        simp [this]⟩)
      (fun img ctx => ⟨_, rfl, by simp⟩)
  · exact (c1_loop_termination ⟨1920, 1080, 40, 3⟩ (fun _ => .ok "")
      (fun i _ _ => .ok ⟨none, none, false, "",
        if i = 2 then "done" else "error", none⟩)
      (fun _ _ _ => .ok ⟨none, none, false, "", "error", none⟩)
      ⟨none, [], "", [], []⟩ () 2).2
      (fun i => ⟨"", rfl⟩)
      (fun i img ctx => ⟨_, rfl, by decide⟩)

/-- C4 counterexample: under the same 1-iteration setup, an unrecognised
action ("frobnicate") leaves the context empty and the observer log empty,
while an `error` action appends a context note and invokes the observer -
so an unrecognised action is NOT treated identically to `error`. -/
theorem c4_counterexample :
    execute_task ⟨1920, 1080, 40, 1⟩ (fun _ => .ok "")
        (fun _ _ _ => .ok ⟨none, none, false, "x", "frobnicate", none⟩)
        (some (fun i _ act ob => .ok (ob ++ [(i, act)])))
        ⟨none, [], "", [], []⟩ ([] : List (Nat × String)) =
      .ok ({ success := false, iterations := 1,
             history := [⟨none, none, false, "x", "frobnicate", none⟩],
             error := some "Max iterations reached" },
           { estimated_cursor := none,
             history := [⟨none, none, false, "x", "frobnicate", none⟩],
             context := "", kb_reports := [], mouse_reports := [] }, []) ∧
    execute_task ⟨1920, 1080, 40, 1⟩ (fun _ => .ok "")
        (fun _ _ _ => .ok ⟨none, none, false, "x", "error", none⟩)
        (some (fun i _ act ob => .ok (ob ++ [(i, act)])))
        ⟨none, [], "", [], []⟩ ([] : List (Nat × String)) =
      .ok ({ success := false, iterations := 1,
             history := [⟨none, none, false, "x", "error", none⟩],
             error := some "Max iterations reached" },
           { estimated_cursor := none,
             history := [⟨none, none, false, "x", "error", none⟩],
             context := "\nIteration 1: Error - x", kb_reports := [],
             mouse_reports := [] }, [(1, "error")]) ∧
    ("" : String) ≠ "\nIteration 1: Error - x" ∧
    ([] : List (Nat × String)) ≠ [(1, "error")] := by
  exact ⟨rfl, rfl, by decide, by decide⟩

/-- C4 (amended): a judgment whose action is outside the recognised set
produces no commands and the loop continues - but, unlike an `error`
action, it appends no note to the running context and does not invoke the
observer callback: the iteration only appends the judgment to the history
(and applies any cursor observation) and passes the observer state through
unchanged. -/
theorem c4_unknown_action_step {σ : Type} (cfg : Config)
    (capture : Nat → Except String String)
    (analyze : Nat → String → String → Except String ScreenAnalysis)
    (callback : Option (Nat → ScreenAnalysis → String → σ → Except String σ))
    (iter fuel : Nat) (s : AgentState) (ob : σ) (img : String)
    (a : ScreenAnalysis)
    (hcap : capture (iter + 1) = .ok img)
    (han : analyze (iter + 1) img s.context = .ok a)
    (hunk : a.suggested_action ∉
      (["move", "click", "type", "scroll_up", "scroll_down", "done", "error"] :
        List String)) :
    execLoop cfg capture analyze callback iter (fuel + 1) s ob =
      execLoop cfg capture analyze callback (iter + 1) fuel
        (stateAfterObserve s a) ob ∧
    (stateAfterObserve s a).context = s.context ∧
    (stateAfterObserve s a).kb_reports = s.kb_reports ∧
    (stateAfterObserve s a).mouse_reports = s.mouse_reports := by
  simp only [List.mem_cons, List.not_mem_nil, or_false, not_or] at hunk
  obtain ⟨h2, h3, h4, h5, h6, h0, h1⟩ := hunk
  refine ⟨?_, ?_, ?_, ?_⟩
  · simp only [execLoop, hcap, han]
    rw [if_neg h0, if_neg h1, if_neg h2, if_neg h3, if_neg h4, if_neg h5, if_neg h6]
  · unfold stateAfterObserve observe
    cases a.cursor_position <;> rfl
  · unfold stateAfterObserve observe
    cases a.cursor_position <;> rfl
  · unfold stateAfterObserve observe
    cases a.cursor_position <;> rfl

/-- Witness for C4 (amended) at concrete inputs: a "frobnicate" judgment
on iteration 1 of a 2-iteration budget continues the loop with only the
history extended. -/
theorem c4_unknown_action_step_witness :
    execLoop (σ := Unit) ⟨1920, 1080, 40, 2⟩ (fun _ => .ok "")
        (fun _ _ _ => .ok ⟨none, none, false, "x", "frobnicate", none⟩)
        none 0 2 ⟨none, [], "", [], []⟩ () =
      execLoop ⟨1920, 1080, 40, 2⟩ (fun _ => .ok "")
        (fun _ _ _ => .ok ⟨none, none, false, "x", "frobnicate", none⟩)
        none 1 1
        (stateAfterObserve ⟨none, [], "", [], []⟩
          ⟨none, none, false, "x", "frobnicate", none⟩) () ∧
    (stateAfterObserve (⟨none, [], "", [], []⟩ : AgentState)
      ⟨none, none, false, "x", "frobnicate", none⟩).context = "" := by
  exact ⟨(c4_unknown_action_step ⟨1920, 1080, 40, 2⟩ (fun _ => .ok "")
      (fun _ _ _ => .ok ⟨none, none, false, "x", "frobnicate", none⟩)
      none 0 1 ⟨none, [], "", [], []⟩ () ""
      ⟨none, none, false, "x", "frobnicate", none⟩ rfl rfl (by decide)).1,
    (c4_unknown_action_step ⟨1920, 1080, 40, 2⟩ (fun _ => .ok "")
      (fun _ _ _ => .ok ⟨none, none, false, "x", "frobnicate", none⟩)
      none 0 1 ⟨none, [], "", [], []⟩ () ""
      ⟨none, none, false, "x", "frobnicate", none⟩ rfl rfl (by decide)).2.1⟩

/-- C5 counterexample: an observer callback that throws "boom" on the first
iteration makes `execute_task` itself raise "boom" - the exception is not
swallowed and no RunResult is returned. -/
theorem c5_counterexample :
    execute_task ⟨1920, 1080, 40, 1⟩ (fun _ => .ok "")
        (fun _ _ _ => .ok ⟨none, none, false, "", "error", none⟩)
        (some (fun _ _ _ _ => (.error "boom" : Except String Unit)))
        ⟨none, [], "", [], []⟩ () = .error "boom" := by
  rfl

/-- C5 (amended): an exception thrown by the observer callback is NOT
swallowed: whenever an iteration with a recognised action invokes the
callback and the callback throws, the whole loop - and hence
`execute_task` - propagates that exception instead of returning a
RunResult. -/
theorem c5_observer_exception_propagates {σ : Type} (cfg : Config)
    (capture : Nat → Except String String)
    (analyze : Nat → String → String → Except String ScreenAnalysis)
    (f : Nat → ScreenAnalysis → String → σ → Except String σ)
    (s0 s : AgentState) (ob : σ) (iter fuel : Nat) (img : String)
    (a : ScreenAnalysis) (msg : String) :
    (capture (iter + 1) = .ok img →
      analyze (iter + 1) img s.context = .ok a →
      a.suggested_action ∈
        (["done", "error", "move", "click", "type", "scroll_up", "scroll_down"] :
          List String) →
      f (iter + 1) a a.suggested_action ob = .error msg →
      execLoop cfg capture analyze (some f) iter (fuel + 1) s ob = .error msg) ∧
    (1 ≤ cfg.max_iterations →
      capture 1 = .ok img →
      analyze 1 img "" = .ok a →
      a.suggested_action ∈
        (["done", "error", "move", "click", "type", "scroll_up", "scroll_down"] :
          List String) →
      f 1 a a.suggested_action ob = .error msg →
      execute_task cfg capture analyze (some f) s0 ob = .error msg) := by
  have main : ∀ (iter fuel : Nat) (s : AgentState),
      capture (iter + 1) = .ok img →
      analyze (iter + 1) img s.context = .ok a →
      a.suggested_action ∈
        (["done", "error", "move", "click", "type", "scroll_up", "scroll_down"] :
          List String) →
      f (iter + 1) a a.suggested_action ob = .error msg →
      execLoop cfg capture analyze (some f) iter (fuel + 1) s ob = .error msg := by
    intro iter fuel s hcap han hmem hf
    simp only [List.mem_cons, List.not_mem_nil, or_false] at hmem
    simp only [execLoop, hcap, han]
    rcases hmem with hm | hm | hm | hm | hm | hm | hm <;>
      rw [hm] at hf ⊢ <;>
        simp only [invokeCb, hf] <;> rfl
  constructor
  · exact main iter fuel s
  · intro hmax hcap han hmem hf
    obtain ⟨fuel', hfuel⟩ : ∃ fuel', cfg.max_iterations = fuel' + 1 :=
      ⟨cfg.max_iterations - 1, by omega⟩
    unfold execute_task
    rw [hfuel]
    exact main 0 fuel' { s0 with history := [], context := "" } hcap han
      (by simpa using hmem) hf

/-- Witness for C5 (amended) at concrete inputs: a callback that always
throws "boom" aborts a 1-iteration task whose judge answers `error`. -/
theorem c5_observer_exception_propagates_witness :
    execute_task ⟨1920, 1080, 40, 1⟩ (fun _ => .ok "")
        (fun _ _ _ => .ok ⟨none, none, false, "z", "error", none⟩)
        (some (fun _ _ _ _ => (.error "boom" : Except String Unit)))
        ⟨some ⟨1, 2⟩, [], "", [], []⟩ () = .error "boom" := by
  exact (c5_observer_exception_propagates ⟨1920, 1080, 40, 1⟩ (fun _ => .ok "")
    (fun _ _ _ => .ok ⟨none, none, false, "z", "error", none⟩)
    (fun _ _ _ _ => (.error "boom" : Except String Unit))
    ⟨some ⟨1, 2⟩, [], "", [], []⟩ ⟨some ⟨1, 2⟩, [], "", [], []⟩ () 0 0 ""
    ⟨none, none, false, "z", "error", none⟩ "boom").2
    (by norm_num) rfl rfl (by decide) rfl

end RamKvm
